import Mathlib

/-
Verification of the natural-language specification of
habitat-lab (src/habitat/datasets/rearrange/rearrange_generator.py)
against a shallow embedding of the source in Lean 4.

Embedding conventions:
- Python dicts become association lists built only through alSet, which
  preserves insertion order and replaces in place (matching CPython dicts).
- Python exceptions (AssertionError, KeyError, NotImplementedError,
  ZeroDivisionError) become an Except PyError monad.
- The opaque simulator and the random sampler internals are modelled by an
  oracle (AttemptOracle) recording, for one episode attempt, the outcomes the
  collaborators would return: the sampled scene handle, each AO state sampler
  result, each object sampler result (with the object translations before
  and after the physics settling), and each target sampler result.
- Geometric positions are rational 3-vectors; displacement comparisons from
  the source compare the Euclidean length against eps = 0.1, which this
  embedding renders by the order-equivalent comparison of the squared norm
  against eps * eps (avoiding square roots while deciding the same predicate).
- The unbounded retry loop of generate_episodes is embedded with explicit
  fuel; the value .ok none denotes an execution that is still looping after
  the given number of iterations (the source loop has no bound).
-/

set_option maxHeartbeats 1000000

namespace HabitatRearrange

/-- Python runtime errors surfaced by the generator code. An assertionError
carries a (simplified, constant) message text; keyError carries the missing
key. indexError stands for the failure Python would produce when a sampler
type string is paired with a parameter tuple of the wrong shape. -/
inductive PyError
  | assertionError (msg : String)
  | keyError (key : String)
  | notImplementedError
  | zeroDivisionError
  | indexError
deriving DecidableEq

/-- Decidable equality for Except results, so that concrete runs of the
embedded code can be checked by decide. -/
instance {ε α : Type} [DecidableEq ε] [DecidableEq α] : DecidableEq (Except ε α) := fun x y =>
  match x, y with
  | .ok a, .ok b =>
    if h : a = b then .isTrue (by rw [h]) else .isFalse (by simp [h])
  | .ok _, .error _ => .isFalse (by simp)
  | .error _, .ok _ => .isFalse (by simp)
  | .error e, .error f =>
    if h : e = f then .isTrue (by rw [h]) else .isFalse (by simp [h])

/-- True exactly on .ok results. -/
def isOkE {ε α : Type} : Except ε α → Bool
  | .ok _ => true
  | .error _ => false

/-- True exactly on .error results. -/
def isErrE {ε α : Type} : Except ε α → Bool
  | .ok _ => false
  | .error _ => true

/-- Association-list lookup, modelling Python dict subscript access. -/
def alGet? {κ α : Type} [BEq κ] (d : List (κ × α)) (k : κ) : Option α :=
  (d.find? (fun p => p.1 == k)).map (fun p => p.2)

/-- Association-list membership, modelling the Python `in` test on a dict. -/
def alContains {κ α : Type} [BEq κ] (d : List (κ × α)) (k : κ) : Bool :=
  d.any (fun p => p.1 == k)

/-- Association-list update, modelling Python dict assignment d[k] = v: an
existing binding is replaced in place, otherwise the new binding is appended,
preserving insertion order. -/
def alSet {κ α : Type} [BEq κ] (d : List (κ × α)) (k : κ) (v : α) : List (κ × α) :=
  if d.any (fun p => p.1 == k) then d.map (fun p => if p.1 == k then (k, v) else p)
  else d ++ [(k, v)]

/-- Rational 3-vector standing for magnum Vector3 positions. -/
structure Vec3 where
  x : ℚ
  y : ℚ
  z : ℚ
deriving DecidableEq

def vzero : Vec3 := ⟨0, 0, 0⟩

def vadd (a b : Vec3) : Vec3 := ⟨a.x + b.x, a.y + b.y, a.z + b.z⟩

def vsub (a b : Vec3) : Vec3 := ⟨a.x - b.x, a.y - b.y, a.z - b.z⟩

/-- Squared Euclidean norm; comparisons of lengths from the source are
embedded as the order-equivalent comparisons of squared norms. -/
def sqNorm (v : Vec3) : ℚ := v.x * v.x + v.y * v.y + v.z * v.z

/-- A rigid object spawned for the current episode, as seen by settle_sim and
record assembly. translation is the position recorded when settle_sim starts
(the spawn position); settledTranslation is the position after the opaque
physics stepping up to the settle duration; transformation is the final 4x4
transform serialized into rigid_objs; creationHandle is
creation_attributes.handle (the template identifier). -/
structure SimObject where
  handle : String
  creationHandle : String
  translation : Vec3
  settledTranslation : Vec3
  transformation : List (List ℚ)
deriving DecidableEq

/-- The fixed stability epsilon error_eps = 0.1 from settle_sim. -/
def error_eps : ℚ := 1 / 10

/-- Python division, raising ZeroDivisionError on a zero denominator. -/
def pydiv (a b : ℚ) : Except PyError ℚ :=
  if b = 0 then .error .zeroDivisionError else .ok (a / b)

/-- Componentwise vector division by a scalar (the centroid average). -/
def vdivE (v : Vec3) (n : ℚ) : Except PyError Vec3 :=
  match pydiv v.x n with
  | .error e => .error e
  | .ok x =>
    match pydiv v.y n with
    | .error e => .error e
    | .ok y =>
      match pydiv v.z n with
      | .error e => .error e
      | .ok z => .ok ⟨x, y, z⟩

/-- The spawn_positions dict of settle_sim: handle mapped to the translation
recorded before the world is stepped (a later object with the same handle
would overwrite an earlier record, exactly as the Python dict does). -/
def spawnPositions (objs : List SimObject) : List (String × Vec3) :=
  objs.foldl (fun d o => alSet d o.handle o.translation) []

/-- The squared displacement the source computes for one object: distance
between the spawn_positions entry for its handle and its settled position. -/
def codeDisplacementSq (spawn : List (String × Vec3)) (o : SimObject) : ℚ :=
  sqNorm (vsub ((alGet? spawn o.handle).getD vzero) o.settledTranslation)

/-- Squared displacement of one object between its own recorded spawn
position and its settled position (the per-object reading; it agrees with
codeDisplacementSq whenever handles are distinct). -/
def displacementSq (o : SimObject) : ℚ :=
  sqNorm (vsub o.translation o.settledTranslation)

/-- The unstable_placements list of settle_sim: handles of objects whose
displacement strictly exceeds error_eps (squared comparison). -/
def unstable_placements (objs : List SimObject) : List String :=
  (objs.filter
    (fun o => decide (error_eps * error_eps < codeDisplacementSq (spawnPositions objs) o))).map
    (fun o => o.handle)

/-- settle_sim: asserts that at least one object was sampled this episode,
averages the spawn centroid (a division by the object count), steps the
world (opaque; outcomes are already recorded in settledTranslation), reports
the unstable fraction (a second division by the object count), and returns
whether zero placements moved further than error_eps. -/
def settle_sim (objs : List SimObject) : Except PyError Bool :=
  if objs.length = 0 then .error (.assertionError "")
  else
    let centroidSum := objs.foldl (fun c o => vadd c o.translation) vzero
    match vdivE centroidSum (objs.length : ℚ) with
    | .error e => .error e
    | .ok _centroid =>
      let unstable := unstable_placements objs
      match pydiv (unstable.length : ℚ) (objs.length : ℚ) with
      | .error e => .error e
      | .ok _unstableFraction => .ok unstable.isEmpty

/-- Parameter tuple of an object sampler config entry (the uniform shape:
object set names, receptacle set names, min and max count, orientation). -/
inductive ObjSamplerParams
  | uniform (objectSets receptacleSets : List String) (numMin numMax : Nat) (orient : String)
deriving DecidableEq

/-- Parameter tuple of a target sampler config entry (the uniform shape:
object sampler names, receptacle set names, min and max count, orientation). -/
inductive TargetSamplerParams
  | uniform (objectSamplerNames receptacleSets : List String) (numMin numMax : Nat) (orient : String)
deriving DecidableEq

/-- Parameter tuple of an AO state sampler config entry: either the uniform
single-link shape or the composite shape listing per-handle link ranges. -/
inductive AOSamplerParams
  | uniform (aoHandle linkName : String) (lo hi : ℚ)
  | composite (entries : List (String × List (String × ℚ × ℚ)))
deriving DecidableEq

/-- Parameter tuple of the scene sampler config entry. -/
inductive SceneSamplerParams
  | single (sceneName : String)
  | subset (included excluded : List String)
deriving DecidableEq

/-- The yacs configuration consumed by the generator: resource set
definitions, one scene sampler spec, the sampler spec lists (each entry is
(name, type string, params)), and the pass-through marker list. -/
structure GenConfig where
  scene_sets : List (String × List String)
  object_sets : List (String × List String)
  receptacle_sets : List (String × List String)
  scene_sampler : String × SceneSamplerParams
  obj_samplers : List (String × String × ObjSamplerParams)
  obj_target_samplers : List (String × String × TargetSamplerParams)
  ao_state_samplers : List (String × String × AOSamplerParams)
  markers : List String
deriving DecidableEq

/-- The three resource set dicts built by _get_resource_sets. -/
structure ResourceSets where
  scene_sets : List (String × List String)
  obj_sets : List (String × List String)
  receptacle_sets : List (String × List String)
deriving DecidableEq

/-- Builds one resource set dict from config pairs (later entries with the
same name overwrite earlier ones, as Python dict assignment does). -/
def buildSets (l : List (String × List String)) : List (String × List String) :=
  l.foldl (fun d p => alSet d p.1 p.2) []

/-- _get_resource_sets: pure dict construction, never raises. -/
def _get_resource_sets (cfg : GenConfig) : ResourceSets :=
  ⟨buildSets cfg.scene_sets, buildSets cfg.object_sets, buildSets cfg.receptacle_sets⟩

/-- The flatten-and-merge comprehension [x for y in names for x in sets[y]],
raising KeyError on an undefined set name. -/
def resolveListAux {α : Type} (sets : List (String × List α)) :
    List String → List α → Except PyError (List α)
  | [], acc => .ok acc
  | y :: rest, acc =>
    match alGet? sets y with
    | none => .error (.keyError y)
    | some xs => resolveListAux sets rest (acc ++ xs)

def resolveList {α : Type} (sets : List (String × List α)) (names : List String) :
    Except PyError (List α) :=
  resolveListAux sets names []

/-- Shared shape of the three sampler-dict construction loops
(_get_obj_samplers, _get_object_target_samplers, _get_ao_state_samplers):
assert the name is not yet registered, then build the sampler from the type
string and params, then register it. -/
def buildSamplersAux {π β : Type} (build : String → String → π → Except PyError β)
    (dupMsg : String) :
    List (String × String × π) → List (String × β) → Except PyError (List (String × β))
  | [], acc => .ok acc
  | e :: rest, acc =>
    if alContains acc e.1 then .error (.assertionError dupMsg)
    else
      match build e.1 e.2.1 e.2.2 with
      | .error err => .error err
      | .ok b => buildSamplersAux build dupMsg rest (alSet acc e.1 b)

def buildSamplers {π β : Type} (build : String → String → π → Except PyError β)
    (dupMsg : String) (entries : List (String × String × π)) :
    Except PyError (List (String × β)) :=
  buildSamplersAux build dupMsg entries []

/-- A constructed ObjectSampler: resolved object and receptacle pools plus
the count range and orientation mode. -/
structure ObjectSampler where
  objects : List String
  receptacles : List String
  numMin : Nat
  numMax : Nat
  orient : String
deriving DecidableEq

/-- Construction of one object sampler: the uniform type resolves its object
and receptacle sets (KeyError on an undefined name); any other type string
raises NotImplementedError. -/
def buildObjSampler (rs : ResourceSets) (_name stype : String) (params : ObjSamplerParams) :
    Except PyError ObjectSampler :=
  if stype = "uniform" then
    match params with
    | .uniform oSets rSets mnN mxN orient =>
      match resolveList rs.obj_sets oSets with
      | .error e => .error e
      | .ok objects =>
        match resolveList rs.receptacle_sets rSets with
        | .error e => .error e
        | .ok receptacles => .ok ⟨objects, receptacles, mnN, mxN, orient⟩
  else .error .notImplementedError

/-- _get_obj_samplers, run during generator construction. -/
def _get_obj_samplers (cfg : GenConfig) (rs : ResourceSets) :
    Except PyError (List (String × ObjectSampler)) :=
  buildSamplers (fun n t p => buildObjSampler rs n t p)
    "Duplicate object sampler name in config." cfg.obj_samplers

/-- A constructed AO state sampler. -/
inductive AOSamplerSpec
  | uniform (aoHandle linkName : String) (lo hi : ℚ)
  | composite (params : List (String × List (String × ℚ × ℚ)))
deriving DecidableEq

/-- Construction of the composite AO sampler parameter dict, asserting that
no AO handle and no link name within a handle is listed twice. -/
def buildCompositeParams (entries : List (String × List (String × ℚ × ℚ))) :
    Except PyError (List (String × List (String × ℚ × ℚ))) :=
  entries.foldlM (fun acc e =>
    if alContains acc e.1 then
      .error (.assertionError "Duplicate handle in composite AO sampler config.")
    else do
      let inner ← e.2.foldlM (fun inn lp =>
        if alContains inn lp.1 then
          .error (.assertionError "Duplicate link name in composite AO sampler config.")
        else .ok (alSet inn lp.1 (lp.2.1, lp.2.2))) ([] : List (String × ℚ × ℚ))
      .ok (alSet acc e.1 inner)) []

/-- Construction of one AO state sampler: uniform and composite type strings
are implemented, anything else raises NotImplementedError. -/
def buildAOSampler (_name stype : String) (params : AOSamplerParams) :
    Except PyError AOSamplerSpec :=
  if stype = "uniform" then
    match params with
    | .uniform h l lo hi => .ok (.uniform h l lo hi)
    | .composite _ => .error .indexError
  else if stype = "composite" then
    match params with
    | .composite entries =>
      match buildCompositeParams entries with
      | .error e => .error e
      | .ok p => .ok (.composite p)
    | .uniform _ _ _ _ => .error .indexError
  else .error .notImplementedError

/-- _get_ao_state_samplers, run during generator construction. -/
def _get_ao_state_samplers (cfg : GenConfig) :
    Except PyError (List (String × AOSamplerSpec)) :=
  buildSamplers (fun n t p => buildAOSampler n t p)
    "Duplicate AO state sampler name in config." cfg.ao_state_samplers

/-- The constructed scene sampler. -/
inductive SceneSamplerSpec
  | single (sceneName : String)
  | subset (included excluded : List String)
deriving DecidableEq

/-- The subset collection loop of _get_scene_sampler: every referenced scene
set must exist (assertion), and its members are accumulated. The source
accumulates into a Python set; this embedding keeps the list order, which the
claims never inspect. -/
def collectSceneSubsetsAux (sceneSets : List (String × List String)) :
    List String → List String → Except PyError (List String)
  | [], acc => .ok acc
  | n :: rest, acc =>
    match alGet? sceneSets n with
    | none => .error (.assertionError "SubsetSceneSampler requested scene_set not found.")
    | some subs => collectSceneSubsetsAux sceneSets rest (acc ++ subs)

def collectSceneSubsets (sceneSets : List (String × List String)) (names : List String) :
    Except PyError (List String) :=
  collectSceneSubsetsAux sceneSets names []

/-- _get_scene_sampler, run during generator construction: single and subset
type strings are implemented, anything else raises NotImplementedError. -/
def _get_scene_sampler (cfg : GenConfig) (rs : ResourceSets) :
    Except PyError SceneSamplerSpec :=
  if cfg.scene_sampler.1 = "single" then
    match cfg.scene_sampler.2 with
    | .single name => .ok (.single name)
    | .subset _ _ => .error .indexError
  else if cfg.scene_sampler.1 = "subset" then
    match cfg.scene_sampler.2 with
    | .subset inc exc =>
      match collectSceneSubsets rs.scene_sets inc with
      | .error e => .error e
      | .ok included =>
        match collectSceneSubsets rs.scene_sets exc with
        | .error e => .error e
        | .ok excluded => .ok (.subset included excluded)
    | .single _ => .error .indexError
  else .error .notImplementedError

/-- The generator state established by a successful construction. The id
counter num_ep_generated starts at zero. -/
structure GeneratorState where
  resourceSets : ResourceSets
  sceneSampler : SceneSamplerSpec
  objSamplers : List (String × ObjectSampler)
  aoSamplers : List (String × AOSamplerSpec)
  num_ep_generated : Nat
deriving DecidableEq

/-- RearrangeEpisodeGenerator.__init__, restricted to its configuration
processing: it builds the resource sets and constructs the scene, object and
AO state samplers, in the source order. It does not touch
obj_target_samplers, which are only constructed per episode. -/
def generatorInit (cfg : GenConfig) : Except PyError GeneratorState :=
  let rs := _get_resource_sets cfg
  match _get_scene_sampler cfg rs with
  | .error e => .error e
  | .ok ss =>
    match _get_obj_samplers cfg rs with
    | .error e => .error e
    | .ok os =>
      match _get_ao_state_samplers cfg with
      | .error e => .error e
      | .ok aos => .ok ⟨rs, ss, os, aos, 0⟩

/-- A 4x4 transform matrix as serialized into episode records (opaque to the
claims, kept as rational rows). -/
abbrev Transform := List (List ℚ)

/-- The ao_states mapping: AO instance handle mapped to a link dict mapping
link index to joint value. -/
abbrev AOStates := List (String × List (Nat × ℚ))

/-- A constructed target sampler: resolved upstream object instances and
receptacle pool plus the count range and orientation mode. -/
structure ObjectTargetSampler where
  object_instances : List SimObject
  receptacles : List String
  numMin : Nat
  numMax : Nat
  orient : String
deriving DecidableEq

/-- Construction of one target sampler: the uniform type resolves its
upstream object sampler names against the episode sampled_objects dict and
its receptacle sets (KeyError on an undefined name); any other type string
raises NotImplementedError. -/
def buildTargetSampler (sampledObjects : List (String × List SimObject)) (rs : ResourceSets)
    (_name stype : String) (params : TargetSamplerParams) :
    Except PyError ObjectTargetSampler :=
  if stype = "uniform" then
    match params with
    | .uniform samplerNames rSets mnN mxN orient =>
      match resolveList sampledObjects samplerNames with
      | .error e => .error e
      | .ok instances =>
        match resolveList rs.receptacle_sets rSets with
        | .error e => .error e
        | .ok receptacles => .ok ⟨instances, receptacles, mnN, mxN, orient⟩
  else .error .notImplementedError

/-- _get_object_target_samplers: constructed during generate_single_episode,
after settling, from the episode sampled_objects dict. -/
def _get_object_target_samplers (cfg : GenConfig)
    (sampledObjects : List (String × List SimObject)) (rs : ResourceSets) :
    Except PyError (List (String × ObjectTargetSampler)) :=
  buildSamplers (fun n t p => buildTargetSampler sampledObjects rs n t p)
    "Duplicate target sampler name in config." cfg.obj_target_samplers

/-- The outcomes the opaque collaborators (scene sampler draw, AO state
samplers, object placement samplers, physics, target samplers) would return
during one episode attempt, keyed by sampler name. A none AO result models a
composite sampler that exhausted its rejection-sampling attempts. -/
structure AttemptOracle where
  sceneHandle : String
  aoResult : String → Option AOStates
  objResult : String → List SimObject
  targetResult : String → List (String × Transform)

/-- The orchestrator merge of one AO sampler result into ao_states
(rearrange_generator.py lines 339-343): ensure a per-instance dict exists,
then write every sampled link value, so a later write to the same instance
and link overwrites the earlier one. -/
def mergeAoResult (acc : AOStates) (results : AOStates) : AOStates :=
  results.foldl (fun a r =>
    let cur := (alGet? a r.1).getD []
    alSet a r.1 (r.2.foldl (fun inner ls => alSet inner ls.1 ls.2) cur)) acc

/-- The AO sampling loop of generate_single_episode: each sampler in
registration order is asked to sample; a none result fails the assert and
raises; otherwise its results are merged into ao_states. -/
def sampleAoPhaseAux (o : AttemptOracle) :
    List (String × AOSamplerSpec) → AOStates → Except PyError AOStates
  | [], acc => .ok acc
  | s :: rest, acc =>
    match o.aoResult s.1 with
    | none => .error (.assertionError "AO sampler failed")
    | some results => sampleAoPhaseAux o rest (mergeAoResult acc results)

def sampleAoPhase (samplers : List (String × AOSamplerSpec)) (o : AttemptOracle) :
    Except PyError AOStates :=
  sampleAoPhaseAux o samplers []

/-- The object placement loop of generate_single_episode: each sampler in
registration order contributes its new objects to the sampled_objects dict
(appending under an already-present name) and to ep_sampled_objects. -/
def sampleObjectsPhaseAux (o : AttemptOracle) :
    List (String × ObjectSampler) → List (String × List SimObject) → List SimObject →
    List (String × List SimObject) × List SimObject
  | [], d, objsAcc => (d, objsAcc)
  | s :: rest, d, objsAcc =>
    let newObjects := o.objResult s.1
    let d2 :=
      if alContains d s.1 then alSet d s.1 ((alGet? d s.1).getD [] ++ newObjects)
      else alSet d s.1 newObjects
    sampleObjectsPhaseAux o rest d2 (objsAcc ++ newObjects)

def sampleObjectsPhase (samplers : List (String × ObjectSampler)) (o : AttemptOracle) :
    List (String × List SimObject) × List SimObject :=
  sampleObjectsPhaseAux o samplers [] []

/-- Caching one sampled target (rearrange_generator.py lines 390-401): the
assert rejects an instance handle already present in sampled_targets, and
only then is the transform written. -/
def addTarget (acc : List (String × Transform)) (h : String) (t : Transform) :
    Except PyError (List (String × Transform)) :=
  if alContains acc h then .error (.assertionError "Duplicate target for instance.")
  else .ok (alSet acc h t)

def addTargets (acc : List (String × Transform)) :
    List (String × Transform) → Except PyError (List (String × Transform))
  | [] => .ok acc
  | r :: rest =>
    match addTarget acc r.1 r.2 with
    | .error e => .error e
    | .ok acc2 => addTargets acc2 rest

/-- The target sampling loop of generate_single_episode over the
per-episode constructed target samplers. -/
def sampleTargetsAux (o : AttemptOracle) :
    List (String × ObjectTargetSampler) → List (String × Transform) →
    Except PyError (List (String × Transform))
  | [], acc => .ok acc
  | s :: rest, acc =>
    match addTargets acc (o.targetResult s.1) with
    | .error e => .error e
    | .ok acc2 => sampleTargetsAux o rest acc2

def sampleTargetsPhase (samplers : List (String × ObjectTargetSampler)) (o : AttemptOracle) :
    Except PyError (List (String × Transform)) :=
  sampleTargetsAux o samplers []

/-- The serialized episode record. -/
structure RearrangeEpisode where
  episode_id : String
  start_position : List ℚ
  start_rotation : List ℚ
  scene_id : String
  ao_states : AOStates
  rigid_objs : List (String × Transform)
  targets : List (String × Transform)
  markers : List String
deriving DecidableEq

/-- generate_single_episode: reset, pick the scene, sample AO states (a none
sampler result raises), sample object placements, settle (unstable returns
none and leaves the generator state untouched), construct the target
samplers, sample targets (a duplicate instance handle raises), then assemble
the record; the id counter is bumped exactly on acceptance and the id is the
stringified pre-increment counter (str(num_ep_generated - 1) after the
increment in the source). -/
def generate_single_episode (cfg : GenConfig) (st : GeneratorState) (o : AttemptOracle) :
    Except PyError (Option RearrangeEpisode × GeneratorState) :=
  let ep_scene_handle := o.sceneHandle
  match sampleAoPhase st.aoSamplers o with
  | .error e => .error e
  | .ok ao_states =>
    let sampled := sampleObjectsPhase st.objSamplers o
    match settle_sim sampled.2 with
    | .error e => .error e
    | .ok stable =>
      if stable then
        match _get_object_target_samplers cfg sampled.1 st.resourceSets with
        | .error e => .error e
        | .ok tsamplers =>
          match sampleTargetsPhase tsamplers o with
          | .error e => .error e
          | .ok sampled_targets =>
            .ok (some {
              episode_id := toString st.num_ep_generated,
              start_position := [0, 0, 0],
              start_rotation := [0, 0, 0, 1],
              scene_id := ep_scene_handle,
              ao_states := ao_states,
              rigid_objs := sampled.2.map (fun x => (x.creationHandle, x.transformation)),
              targets := sampled_targets,
              markers := cfg.markers },
              { st with num_ep_generated := st.num_ep_generated + 1 })
      else .ok (none, st)

/-- The retry loop of generate_episodes, with explicit fuel: while fewer than
num episodes are accepted, run one attempt; a none attempt increments the
failure counter and retries, an accepted attempt is appended; an exception
propagates. .ok none means the loop is still running after fuel iterations
(the source loop is unbounded). -/
def generate_episodes_loop (cfg : GenConfig) (oracles : Nat → AttemptOracle) (num : Nat) :
    Nat → Nat → GeneratorState → List RearrangeEpisode → Nat →
    Except PyError (Option (List RearrangeEpisode × Nat × GeneratorState))
  | 0, _, _, _, _ => .ok none
  | fuel + 1, k, st, acc, failed =>
    if acc.length < num then
      match generate_single_episode cfg st (oracles k) with
      | .error e => .error e
      | .ok (none, st2) => generate_episodes_loop cfg oracles num fuel (k + 1) st2 acc (failed + 1)
      | .ok (some ep, st2) =>
        generate_episodes_loop cfg oracles num fuel (k + 1) st2 (acc ++ [ep]) failed
    else .ok (some (acc, failed, st))

/-- generate_episodes(num_episodes), starting from an empty accepted list and
zero failures. -/
def generate_episodes (cfg : GenConfig) (oracles : Nat → AttemptOracle) (num fuel : Nat)
    (st : GeneratorState) :
    Except PyError (Option (List RearrangeEpisode × Nat × GeneratorState)) :=
  generate_episodes_loop cfg oracles num fuel 0 st [] 0

/-
Concrete fixtures: a small configuration with one scene, one object sampler
and one AO state sampler, together with oracles describing a stable attempt,
an unstable attempt and a failing AO sampler attempt. They are only used to
instantiate theorems at concrete inputs.
-/

def cfg0 : GenConfig :=
  { scene_sets := [("s", ["sceneA"])]
    object_sets := [("o", ["obj1"])]
    receptacle_sets := [("r", ["table"])]
    scene_sampler := ("single", .single "sceneA")
    obj_samplers := [("any", "uniform", .uniform ["o"] ["r"] 1 1 "up")]
    obj_target_samplers := []
    ao_state_samplers := [("ao1", "uniform", .uniform "fridge" "door" (3 / 2) (3 / 2))]
    markers := ["m"] }

def st0 : GeneratorState :=
  { resourceSets := ⟨[("s", ["sceneA"])], [("o", ["obj1"])], [("r", ["table"])]⟩
    sceneSampler := .single "sceneA"
    objSamplers := [("any", ⟨["obj1"], ["table"], 1, 1, "up"⟩)]
    aoSamplers := [("ao1", .uniform "fridge" "door" (3 / 2) (3 / 2))]
    num_ep_generated := 0 }

/-- An object that settles 0.01 units below its spawn position (stable). -/
def objStable : SimObject :=
  ⟨"objInst1", "obj1", ⟨0, 0, 0⟩, ⟨0, 0, 1 / 100⟩, [[1]]⟩

/-- An object that settles a full unit away from its spawn position
(unstable: displacement 1 exceeds error_eps = 0.1). -/
def objUnstable : SimObject :=
  ⟨"objInst2", "obj1", ⟨0, 0, 0⟩, ⟨0, 0, 1⟩, [[1]]⟩

def oracleStable : AttemptOracle :=
  { sceneHandle := "sceneA"
    aoResult := fun n => if n = "ao1" then some [("fridgeInst", [(0, 3 / 2)])] else none
    objResult := fun n => if n = "any" then [objStable] else []
    targetResult := fun _ => [] }

def oracleUnstable : AttemptOracle :=
  { oracleStable with objResult := fun n => if n = "any" then [objUnstable] else [] }

/-- An attempt in which every AO state sampler signals failure. -/
def oracleAOFail : AttemptOracle :=
  { oracleStable with aoResult := fun _ => none }

/-- The episode record produced by the stable attempt from st0. -/
def ep0 : RearrangeEpisode :=
  { episode_id := "0"
    start_position := [0, 0, 0]
    start_rotation := [0, 0, 0, 1]
    scene_id := "sceneA"
    ao_states := [("fridgeInst", [(0, 3 / 2)])]
    rigid_objs := [("obj1", [[1]])]
    targets := []
    markers := ["m"] }

def st1 : GeneratorState := { st0 with num_ep_generated := 1 }

/-- cfg0 with one target sampler drawing targets for the objects of the
object sampler named any. -/
def cfgT : GenConfig :=
  { cfg0 with obj_target_samplers := [("t", "uniform", .uniform ["any"] ["r"] 1 1 "up")] }

def oracleT : AttemptOracle :=
  { oracleStable with targetResult := fun n => if n = "t" then [("objInst1", [[2]])] else [] }

/-- The episode record produced by the stable attempt from st0 under cfgT. -/
def epT : RearrangeEpisode :=
  { ep0 with targets := [("objInst1", [[2]])] }

/-- cfg0 with a duplicated target sampler name: a configuration error in the
target category. -/
def cfgDupTarget : GenConfig :=
  { cfg0 with obj_target_samplers :=
      [("t", "uniform", .uniform ["any"] ["r"] 1 1 "up"),
       ("t", "uniform", .uniform ["any"] ["r"] 1 1 "up")] }

/-- cfg0 with a duplicated object sampler name: a configuration error in the
object sampler category, detected at construction. -/
def cfgDupObj : GenConfig :=
  { cfg0 with obj_samplers :=
      [("any", "uniform", .uniform ["o"] ["r"] 1 1 "up"),
       ("any", "uniform", .uniform ["o"] ["r"] 1 1 "up")] }

/-- An attempt sequence whose second attempt (index 1) is unstable and every
other attempt is stable. -/
def oraclesMix : Nat → AttemptOracle :=
  fun k => if k = 1 then oracleUnstable else oracleStable

/-- The second accepted episode of the mixed run (id 1: the rejected attempt
between the two acceptances does not advance the counter). -/
def ep1 : RearrangeEpisode := { ep0 with episode_id := "1" }

def st2c : GeneratorState := { st0 with num_ep_generated := 2 }

/-
Helper lemmas about the dict embedding and the settle validator.
-/

theorem alSet_not_contains {κ α : Type} [BEq κ] (d : List (κ × α)) (k : κ) (v : α)
    (h : alContains d k = false) : alSet d k v = d ++ [(k, v)] := by
  unfold alContains at h
  unfold alSet
  rw [h]
  simp

theorem alContains_append {κ α : Type} [BEq κ] (d e : List (κ × α)) (k : κ) :
    alContains (d ++ e) k = (alContains d k || alContains e k) := by
  unfold alContains
  simp [List.any_append]

theorem foldl_alSet_spawn (objs : List SimObject) (acc : List (String × Vec3))
    (hdis : ∀ o ∈ objs, alContains acc o.handle = false)
    (hnd : (objs.map SimObject.handle).Nodup) :
    objs.foldl (fun d o => alSet d o.handle o.translation) acc
      = acc ++ objs.map (fun o => (o.handle, o.translation)) := by
  induction objs generalizing acc with
  | nil => simp
  | cons o rest ih =>
    have hc : alContains acc o.handle = false := hdis o (by simp)
    have hstep : alSet acc o.handle o.translation = acc ++ [(o.handle, o.translation)] :=
      alSet_not_contains acc o.handle o.translation hc
    have hnd2 : (rest.map SimObject.handle).Nodup := (List.nodup_cons.mp (by simpa using hnd)).2
    have hnotin : o.handle ∉ rest.map SimObject.handle :=
      (List.nodup_cons.mp (by simpa using hnd)).1
    have hdis2 : ∀ o2 ∈ rest,
        alContains (acc ++ [(o.handle, o.translation)]) o2.handle = false := by
      intro o2 h2
      rw [alContains_append]
      have h1 : alContains acc o2.handle = false := hdis o2 (by simp [h2])
      have hne : o.handle ≠ o2.handle := by
        intro he
        exact hnotin (he ▸ List.mem_map_of_mem SimObject.handle h2)
      have h3 : alContains [(o.handle, o.translation)] o2.handle = false := by
        unfold alContains
        simp [beq_eq_false_iff_ne, hne]
      rw [h1, h3]
      rfl
    simp only [List.foldl_cons, hstep, List.map_cons]
    rw [ih (acc ++ [(o.handle, o.translation)]) hdis2 hnd2]
    simp

/-- Under distinct handles, the spawn_positions dict is exactly the list of
per-object (handle, spawn translation) pairs. -/
theorem spawnPositions_eq (objs : List SimObject)
    (hnd : (objs.map SimObject.handle).Nodup) :
    spawnPositions objs = objs.map (fun o => (o.handle, o.translation)) := by
  unfold spawnPositions
  rw [foldl_alSet_spawn objs [] (by intro o _; rfl) hnd]
  simp

theorem alGet?_map_self (objs : List SimObject) (o : SimObject)
    (hnd : (objs.map SimObject.handle).Nodup) (ho : o ∈ objs) :
    alGet? (objs.map (fun x => (x.handle, x.translation))) o.handle = some o.translation := by
  induction objs with
  | nil => cases ho
  | cons a rest ih =>
    rcases List.mem_cons.mp ho with h | h
    · subst h
      unfold alGet?
      simp
    · have hnotin : a.handle ∉ rest.map SimObject.handle :=
        (List.nodup_cons.mp (by simpa using hnd)).1
      have hne : (a.handle == o.handle) = false := by
        rw [beq_eq_false_iff_ne]
        intro he
        exact hnotin (he ▸ List.mem_map_of_mem SimObject.handle h)
      unfold alGet?
      simp only [List.map_cons, List.find?]
      rw [hne]
      exact ih (List.nodup_cons.mp (by simpa using hnd)).2 h

/-- Under distinct handles, the displacement the source computes through the
spawn_positions dict coincides with the per-object displacement. -/
theorem codeDisp_eq (objs : List SimObject) (o : SimObject)
    (hnd : (objs.map SimObject.handle).Nodup) (ho : o ∈ objs) :
    codeDisplacementSq (spawnPositions objs) o = displacementSq o := by
  unfold codeDisplacementSq displacementSq
  rw [spawnPositions_eq objs hnd, alGet?_map_self objs o hnd ho]
  rfl

/-- On a nonempty object list, settle_sim passes its assert and both
divisions and returns the emptiness of the unstable list. -/
theorem settle_sim_of_ne_nil (objs : List SimObject) (h : objs ≠ []) :
    settle_sim objs = .ok (unstable_placements objs).isEmpty := by
  have hl : objs.length ≠ 0 := by simpa using h
  have hq : ((objs.length : ℚ)) ≠ 0 := by exact_mod_cast hl
  unfold settle_sim
  rw [if_neg hl]
  simp [vdivE, pydiv, hq]

theorem handle_inj {objs : List SimObject} (hnd : (objs.map SimObject.handle).Nodup)
    {a b : SimObject} (ha : a ∈ objs) (hb : b ∈ objs) (h : a.handle = b.handle) : a = b :=
  List.inj_on_of_nodup_map hnd ha hb h

theorem unstable_empty_iff (objs : List SimObject)
    (hnd : (objs.map SimObject.handle).Nodup) :
    unstable_placements objs = [] ↔
      ∀ o ∈ objs, displacementSq o ≤ error_eps * error_eps := by
  unfold unstable_placements
  rw [List.map_eq_nil_iff, List.filter_eq_nil_iff]
  constructor
  · intro h o ho
    have := h o ho
    rw [decide_eq_true_iff] at this
    push_neg at this
    rwa [codeDisp_eq objs o hnd ho] at this
  · intro h o ho
    rw [decide_eq_true_iff]
    push_neg
    rw [codeDisp_eq objs o hnd ho]
    exact h o ho

theorem mem_unstable_iff (objs : List SimObject) (o : SimObject)
    (hnd : (objs.map SimObject.handle).Nodup) (ho : o ∈ objs) :
    o.handle ∈ unstable_placements objs ↔ error_eps * error_eps < displacementSq o := by
  unfold unstable_placements
  simp only [List.mem_map, List.mem_filter]
  constructor
  · rintro ⟨o2, ⟨ho2, hgt⟩, heq⟩
    have : o2 = o := handle_inj hnd ho2 ho heq
    subst this
    rw [decide_eq_true_iff] at hgt
    rwa [codeDisp_eq objs o2 hnd ho2] at hgt
  · intro h
    refine ⟨o, ⟨ho, ?_⟩, rfl⟩
    rw [decide_eq_true_iff, codeDisp_eq objs o hnd ho]
    exact h

/-- Claim C2: over a nonempty set of episode-sampled objects (handles are
distinct identifiers in the simulator), settle_sim returns true exactly when
every tracked object moved at most error_eps = 0.1 length units between its
recorded spawn position and its settled position (lengths compared through
the order-equivalent squared norms), and an object is classified unstable
exactly when its displacement strictly exceeds that epsilon. -/
theorem claim_C2_settle_verdict (objs : List SimObject) (hne : objs ≠ [])
    (hnd : (objs.map SimObject.handle).Nodup) :
    (settle_sim objs = .ok true ↔
      ∀ o ∈ objs, displacementSq o ≤ error_eps * error_eps)
    ∧ ∀ o ∈ objs,
        (o.handle ∈ unstable_placements objs ↔ error_eps * error_eps < displacementSq o) := by
  constructor
  · rw [settle_sim_of_ne_nil objs hne]
    rw [show ∀ b : Bool, ((Except.ok b : Except PyError Bool) = .ok true ↔ b = true) from
      fun b => by simp]
    rw [List.isEmpty_iff]
    exact unstable_empty_iff objs hnd
  · intro o ho
    exact mem_unstable_iff objs o hnd ho

theorem claim_C2_settle_verdict_witness :
    ([objStable, objUnstable] ≠ ([] : List SimObject)
      ∧ ([objStable, objUnstable].map SimObject.handle).Nodup)
    ∧ ((settle_sim [objStable, objUnstable] = .ok true ↔
        ∀ o ∈ [objStable, objUnstable], displacementSq o ≤ error_eps * error_eps)
      ∧ ∀ o ∈ [objStable, objUnstable],
          (o.handle ∈ unstable_placements [objStable, objUnstable] ↔
            error_eps * error_eps < displacementSq o)) :=
  ⟨⟨by simp, by simp [objStable, objUnstable]⟩,
    claim_C2_settle_verdict [objStable, objUnstable] (by simp)
      (by simp [objStable, objUnstable])⟩

/-- Claim C10: settle_sim called on an empty sampled-objects list raises an
assertion error rather than returning a verdict, and on any nonempty list the
assert and both divisions by the object count succeed, so a verdict is
returned. -/
theorem claim_C10_settle_requires_objects :
    settle_sim [] = .error (.assertionError "")
    ∧ ∀ objs : List SimObject, objs ≠ [] → isOkE (settle_sim objs) = true := by
  constructor
  · rfl
  · intro objs h
    rw [settle_sim_of_ne_nil objs h]
    rfl

theorem claim_C10_settle_requires_objects_witness :
    ([objStable] ≠ ([] : List SimObject)) ∧ isOkE (settle_sim [objStable]) = true :=
  ⟨by simp, claim_C10_settle_requires_objects.2 [objStable] (by simp)⟩

theorem gse_ok_some_inv (cfg : GenConfig) (st : GeneratorState) (o : AttemptOracle)
    (ep : RearrangeEpisode) (st2 : GeneratorState)
    (h : generate_single_episode cfg st o = .ok (some ep, st2)) :
    ep.episode_id = toString st.num_ep_generated
    ∧ st2.num_ep_generated = st.num_ep_generated + 1
    ∧ ep.start_position = [0, 0, 0]
    ∧ ep.start_rotation = [0, 0, 0, 1]
    ∧ ∃ tsamplers,
        _get_object_target_samplers cfg (sampleObjectsPhase st.objSamplers o).1 st.resourceSets
          = .ok tsamplers
        ∧ sampleTargetsPhase tsamplers o = .ok ep.targets := by
  unfold generate_single_episode at h
  cases hao : sampleAoPhase st.aoSamplers o with
  | error e => rw [hao] at h; cases h
  | ok aos =>
    rw [hao] at h
    simp only at h
    cases hsettle : settle_sim (sampleObjectsPhase st.objSamplers o).2 with
    | error e => rw [hsettle] at h; cases h
    | ok stable =>
      rw [hsettle] at h
      cases stable with
      | false => simp only [if_neg] at h; cases h
      | true =>
        simp only [if_pos] at h
        cases hts : _get_object_target_samplers cfg (sampleObjectsPhase st.objSamplers o).1
            st.resourceSets with
        | error e => rw [hts] at h; cases h
        | ok tsamplers =>
          rw [hts] at h
          simp only at h
          cases htar : sampleTargetsPhase tsamplers o with
          | error e => rw [htar] at h; cases h
          | ok sampled_targets =>
            rw [htar] at h
            simp only at h
            injection h with h1
            injection h1 with hep hst
            injection hep with hep2
            subst hep2
            subst hst
            exact ⟨rfl, rfl, rfl, rfl, tsamplers, rfl, htar⟩

theorem gse_ok_none_inv (cfg : GenConfig) (st : GeneratorState) (o : AttemptOracle)
    (st2 : GeneratorState)
    (h : generate_single_episode cfg st o = .ok (none, st2)) : st2 = st := by
  unfold generate_single_episode at h
  cases hao : sampleAoPhase st.aoSamplers o with
  | error e => rw [hao] at h; cases h
  | ok aos =>
    rw [hao] at h
    simp only at h
    cases hsettle : settle_sim (sampleObjectsPhase st.objSamplers o).2 with
    | error e => rw [hsettle] at h; cases h
    | ok stable =>
      rw [hsettle] at h
      cases stable with
      | false =>
        simp only [Bool.false_eq_true, if_false] at h
        injection h with h1
        injection h1 with _ hst
        exact hst.symm
      | true =>
        simp only [if_pos] at h
        cases hts : _get_object_target_samplers cfg (sampleObjectsPhase st.objSamplers o).1
            st.resourceSets with
        | error e => rw [hts] at h; cases h
        | ok ts =>
          rw [hts] at h
          simp only at h
          cases htar : sampleTargetsPhase ts o with
          | error e => rw [htar] at h; cases h
          | ok tg =>
            rw [htar] at h
            simp at h

theorem generatorInit_counter (cfg : GenConfig) (st : GeneratorState)
    (h : generatorInit cfg = .ok st) : st.num_ep_generated = 0 := by
  unfold generatorInit at h
  simp only at h
  cases h1 : _get_scene_sampler cfg (_get_resource_sets cfg) with
  | error e => rw [h1] at h; cases h
  | ok ss =>
    rw [h1] at h
    simp only at h
    cases h2 : _get_obj_samplers cfg (_get_resource_sets cfg) with
    | error e => rw [h2] at h; cases h
    | ok os =>
      rw [h2] at h
      simp only at h
      cases h3 : _get_ao_state_samplers cfg with
      | error e => rw [h3] at h; cases h
      | ok aos =>
        rw [h3] at h
        simp only at h
        injection h with h4
        rw [← h4]

theorem settleStableEval : settle_sim [objStable] = .ok true := by
  norm_num [settle_sim, objStable, vdivE, pydiv, unstable_placements, spawnPositions,
    alSet, alGet?, codeDisplacementSq, vsub, sqNorm, vzero, error_eps, vadd]

theorem settleUnstableEval : settle_sim [objUnstable] = .ok false := by
  norm_num [settle_sim, objUnstable, vdivE, pydiv, unstable_placements, spawnPositions,
    alSet, alGet?, codeDisplacementSq, vsub, sqNorm, vzero, error_eps, vadd]

theorem gseStableEval : generate_single_episode cfg0 st0 oracleStable = .ok (some ep0, st1) := by
  have hao : sampleAoPhase st0.aoSamplers oracleStable = .ok [("fridgeInst", [(0, 3/2)])] := rfl
  have h : sampleObjectsPhase st0.objSamplers oracleStable = ([("any", [objStable])], [objStable]) := rfl
  rw [generate_single_episode]
  simp only [hao, h, settleStableEval]
  rfl

theorem gseUnstableEval : generate_single_episode cfg0 st0 oracleUnstable = .ok (none, st0) := by
  have hao : sampleAoPhase st0.aoSamplers oracleUnstable = .ok [("fridgeInst", [(0, 3/2)])] := rfl
  have h : sampleObjectsPhase st0.objSamplers oracleUnstable = ([("any", [objUnstable])], [objUnstable]) := rfl
  rw [generate_single_episode]
  simp only [hao, h, settleUnstableEval]
  rfl

theorem gseTEval : generate_single_episode cfgT st0 oracleT = .ok (some epT, st1) := by
  have hao : sampleAoPhase st0.aoSamplers oracleT = .ok [("fridgeInst", [(0, 3/2)])] := rfl
  have h : sampleObjectsPhase st0.objSamplers oracleT = ([("any", [objStable])], [objStable]) := rfl
  rw [generate_single_episode]
  simp only [hao, h, settleStableEval]
  rfl

/-- Claim C9: every episode record returned by generate_single_episode has
start_position equal to the zero 3-vector and start_rotation equal to the
identity quaternion [0, 0, 0, 1], independently of any sampling outcome. -/
theorem claim_C9_start_pose (cfg : GenConfig) (st : GeneratorState) (o : AttemptOracle)
    (ep : RearrangeEpisode) (st2 : GeneratorState)
    (h : generate_single_episode cfg st o = .ok (some ep, st2)) :
    ep.start_position = [0, 0, 0] ∧ ep.start_rotation = [0, 0, 0, 1] := by
  have hh := gse_ok_some_inv cfg st o ep st2 h
  exact ⟨hh.2.2.1, hh.2.2.2.1⟩

theorem claim_C9_start_pose_witness :
    generate_single_episode cfg0 st0 oracleStable = .ok (some ep0, st1)
    ∧ ep0.start_position = [0, 0, 0] ∧ ep0.start_rotation = [0, 0, 0, 1] :=
  ⟨gseStableEval, claim_C9_start_pose cfg0 st0 oracleStable ep0 st1 gseStableEval⟩

theorem loop_step_accept (cfg : GenConfig) (oracles : Nat → AttemptOracle) (num fuel k : Nat)
    (st st2 : GeneratorState) (acc : List RearrangeEpisode) (failed : Nat) (ep : RearrangeEpisode)
    (hg : generate_single_episode cfg st (oracles k) = .ok (some ep, st2))
    (hlt : acc.length < num) :
    generate_episodes_loop cfg oracles num (fuel + 1) k st acc failed
      = generate_episodes_loop cfg oracles num fuel (k + 1) st2 (acc ++ [ep]) failed := by
  rw [generate_episodes_loop, if_pos hlt, hg]

theorem loop_step_reject (cfg : GenConfig) (oracles : Nat → AttemptOracle) (num fuel k : Nat)
    (st st2 : GeneratorState) (acc : List RearrangeEpisode) (failed : Nat)
    (hg : generate_single_episode cfg st (oracles k) = .ok (none, st2))
    (hlt : acc.length < num) :
    generate_episodes_loop cfg oracles num (fuel + 1) k st acc failed
      = generate_episodes_loop cfg oracles num fuel (k + 1) st2 acc (failed + 1) := by
  rw [generate_episodes_loop, if_pos hlt, hg]

theorem loop_exit (cfg : GenConfig) (oracles : Nat → AttemptOracle) (num fuel k : Nat)
    (st : GeneratorState) (acc : List RearrangeEpisode) (failed : Nat)
    (hge : ¬ acc.length < num) :
    generate_episodes_loop cfg oracles num (fuel + 1) k st acc failed
      = .ok (some (acc, failed, st)) := by
  rw [generate_episodes_loop, if_neg hge]

theorem genEpEval : generate_episodes cfg0 (fun _ => oracleStable) 1 3 st0
    = .ok (some ([ep0], 0, st1)) := by
  rw [generate_episodes]
  rw [show (3:Nat) = 2 + 1 from rfl]
  rw [loop_step_accept cfg0 (fun _ => oracleStable) 1 2 0 st0 st1 [] 0 ep0 gseStableEval (by simp)]
  simp only [Nat.zero_add, List.nil_append]
  rw [show (2:Nat) = 1 + 1 from rfl]
  rw [loop_exit cfg0 (fun _ => oracleStable) 1 1 1 st1 [ep0] 0 (by simp)]

theorem loop_ok_some_inv (cfg : GenConfig) (oracles : Nat → AttemptOracle) (num : Nat) :
    ∀ (fuel k : Nat) (st : GeneratorState) (acc : List RearrangeEpisode) (failed : Nat)
      (lst : List RearrangeEpisode) (fl : Nat) (st2 : GeneratorState),
      generate_episodes_loop cfg oracles num fuel k st acc failed = .ok (some (lst, fl, st2)) →
      acc.length ≤ num →
      lst.length = num
      ∧ ∀ e ∈ lst, e ∈ acc ∨ ∃ j s s2, generate_single_episode cfg s (oracles j) = .ok (some e, s2)
  | 0, k, st, acc, failed, lst, fl, st2 => by
    intro h _
    cases h
  | fuel + 1, k, st, acc, failed, lst, fl, st2 => by
    intro h hle
    rw [generate_episodes_loop] at h
    by_cases hlt : acc.length < num
    · rw [if_pos hlt] at h
      cases hg : generate_single_episode cfg st (oracles k) with
      | error e => rw [hg] at h; cases h
      | ok p =>
        rw [hg] at h
        rcases p with ⟨epOpt, stNew⟩
        cases epOpt with
        | none =>
          simp only at h
          exact loop_ok_some_inv cfg oracles num fuel (k + 1) stNew acc (failed + 1)
            lst fl st2 h hle
        | some ep =>
          simp only at h
          have hres := loop_ok_some_inv cfg oracles num fuel (k + 1) stNew (acc ++ [ep])
            failed lst fl st2 h (by simpa using hlt)
          refine ⟨hres.1, fun e he => ?_⟩
          rcases hres.2 e he with hin | hex
          · rcases List.mem_append.mp hin with h1 | h2
            · exact Or.inl h1
            · have heq : e = ep := by simpa using h2
              exact Or.inr ⟨k, st, stNew, heq ▸ hg⟩
          · exact Or.inr hex
    · rw [if_neg hlt] at h
      injection h with h1
      injection h1 with h2
      injection h2 with hlst h3
      injection h3 with hfl hst
      subst hlst
      subst hst
      exact ⟨Nat.le_antisymm hle (Nat.not_lt.mp hlt), fun e he => Or.inl he⟩

theorem loop_ids_inv (cfg : GenConfig) (oracles : Nat → AttemptOracle) (num c0 : Nat) :
    ∀ (fuel k : Nat) (st : GeneratorState) (acc : List RearrangeEpisode) (failed : Nat)
      (lst : List RearrangeEpisode) (fl : Nat) (st2 : GeneratorState),
      generate_episodes_loop cfg oracles num fuel k st acc failed = .ok (some (lst, fl, st2)) →
      st.num_ep_generated = c0 + acc.length →
      (∀ (i : Nat) (e : RearrangeEpisode), acc[i]? = some e → e.episode_id = toString (c0 + i)) →
      (∀ (i : Nat) (e : RearrangeEpisode), lst[i]? = some e → e.episode_id = toString (c0 + i))
      ∧ st2.num_ep_generated = c0 + lst.length
  | 0, k, st, acc, failed, lst, fl, st2 => by
    intro h _ _
    cases h
  | fuel + 1, k, st, acc, failed, lst, fl, st2 => by
    intro h hcnt hids
    rw [generate_episodes_loop] at h
    by_cases hlt : acc.length < num
    · rw [if_pos hlt] at h
      cases hg : generate_single_episode cfg st (oracles k) with
      | error e => rw [hg] at h; cases h
      | ok p =>
        rw [hg] at h
        rcases p with ⟨epOpt, stNew⟩
        cases epOpt with
        | none =>
          simp only at h
          have hstEq : stNew = st := gse_ok_none_inv cfg st (oracles k) stNew hg
          exact loop_ids_inv cfg oracles num c0 fuel (k + 1) stNew acc (failed + 1)
            lst fl st2 h (by rw [hstEq]; exact hcnt) hids
        | some ep =>
          simp only at h
          have hinv := gse_ok_some_inv cfg st (oracles k) ep stNew hg
          have hcnt2 : stNew.num_ep_generated = c0 + (acc ++ [ep]).length := by
            rw [hinv.2.1, hcnt]
            simp [Nat.add_assoc]
          have hids2 : ∀ (i : Nat) (e : RearrangeEpisode),
              (acc ++ [ep])[i]? = some e → e.episode_id = toString (c0 + i) := by
            intro i e hi
            rcases Nat.lt_trichotomy i acc.length with hi1 | hi1 | hi1
            · rw [List.getElem?_append, if_pos hi1] at hi
              exact hids i e hi
            · subst hi1
              rw [List.getElem?_concat_length] at hi
              injection hi with hi2
              rw [← hi2, hinv.1, hcnt]
            · rw [List.getElem?_eq_none (by simpa using hi1)] at hi
              cases hi
          exact loop_ids_inv cfg oracles num c0 fuel (k + 1) stNew (acc ++ [ep])
            failed lst fl st2 h hcnt2 hids2
    · rw [if_neg hlt] at h
      injection h with h1
      injection h1 with h2
      injection h2 with hlst h3
      injection h3 with hfl hst
      subst hlst
      subst hst
      exact ⟨hids, hcnt⟩

/-- Claim C1: whenever generate_episodes returns (the fuel-indexed loop
reaches its exit), the returned list holds exactly num accepted episode
records, each produced by a successful generate_single_episode attempt (so
no attempt slot is None and no partial result is ever returned); rejected
attempts only increment the failure count and retry, without bound. -/
theorem claim_C1_exact_count (cfg : GenConfig) (oracles : Nat → AttemptOracle) (num fuel : Nat)
    (st : GeneratorState) (lst : List RearrangeEpisode) (fl : Nat) (st2 : GeneratorState)
    (h : generate_episodes cfg oracles num fuel st = .ok (some (lst, fl, st2))) :
    lst.length = num
    ∧ ∀ e ∈ lst, ∃ j s s2, generate_single_episode cfg s (oracles j) = .ok (some e, s2) := by
  have hres := loop_ok_some_inv cfg oracles num fuel 0 st [] 0 lst fl st2 h (by simp)
  refine ⟨hres.1, fun e he => ?_⟩
  rcases hres.2 e he with h1 | h2
  · simp at h1
  · exact h2

theorem gseStableEvalAt (n : Nat) :
    generate_single_episode cfg0 { st0 with num_ep_generated := n } oracleStable
      = .ok (some { ep0 with episode_id := toString n },
             { st0 with num_ep_generated := n + 1 }) := by
  have hao : sampleAoPhase ({ st0 with num_ep_generated := n } : GeneratorState).aoSamplers
      oracleStable = .ok [("fridgeInst", [(0, 3/2)])] := rfl
  have h : sampleObjectsPhase ({ st0 with num_ep_generated := n } : GeneratorState).objSamplers
      oracleStable = ([("any", [objStable])], [objStable]) := rfl
  rw [generate_single_episode]
  simp only [hao, h, settleStableEval]
  rfl

theorem gseUnstableEvalAt (n : Nat) :
    generate_single_episode cfg0 { st0 with num_ep_generated := n } oracleUnstable
      = .ok (none, { st0 with num_ep_generated := n }) := by
  have hao : sampleAoPhase ({ st0 with num_ep_generated := n } : GeneratorState).aoSamplers
      oracleUnstable = .ok [("fridgeInst", [(0, 3/2)])] := rfl
  have h : sampleObjectsPhase ({ st0 with num_ep_generated := n } : GeneratorState).objSamplers
      oracleUnstable = ([("any", [objUnstable])], [objUnstable]) := rfl
  rw [generate_single_episode]
  simp only [hao, h, settleUnstableEval]
  rfl

theorem genEpMixEval : generate_episodes cfg0 oraclesMix 2 5 st0
    = .ok (some ([ep0, ep1], 1, st2c)) := by
  have h0 : generate_single_episode cfg0 st0 (oraclesMix 0) = .ok (some ep0, st1) :=
    gseStableEval
  have h1 : generate_single_episode cfg0 st1 (oraclesMix 1) = .ok (none, st1) :=
    gseUnstableEvalAt 1
  have h2 : generate_single_episode cfg0 st1 (oraclesMix 2) = .ok (some ep1, st2c) :=
    gseStableEvalAt 1
  rw [generate_episodes]
  rw [show (5:Nat) = 4 + 1 from rfl, loop_step_accept cfg0 oraclesMix 2 4 0 st0 st1 [] 0 ep0 h0 (by simp)]
  simp only [List.nil_append, Nat.zero_add]
  rw [show (4:Nat) = 3 + 1 from rfl, loop_step_reject cfg0 oraclesMix 2 3 1 st1 st1 [ep0] 0 h1 (by simp)]
  simp only [Nat.zero_add]
  rw [show (3:Nat) = 2 + 1 from rfl, loop_step_accept cfg0 oraclesMix 2 2 2 st1 st2c [ep0] 1 ep1 h2 (by simp)]
  rw [show (2:Nat) = 1 + 1 from rfl]
  rw [loop_exit cfg0 oraclesMix 2 1 3 st2c ([ep0] ++ [ep1]) 1 (by simp)]
  rfl

/-- Claim C7: starting from a freshly constructed generator (counter 0), the
k-th accepted episode of a generate_episodes run carries episode_id equal to
the string representation of k, the counter afterwards equals the number of
accepted episodes, and a rejected attempt never advances the counter. -/
theorem claim_C7_episode_ids (cfg : GenConfig) (st : GeneratorState) (oracles : Nat → AttemptOracle)
    (num fuel : Nat) (lst : List RearrangeEpisode) (fl : Nat) (st2 : GeneratorState)
    (hinit : generatorInit cfg = .ok st)
    (hrun : generate_episodes cfg oracles num fuel st = .ok (some (lst, fl, st2))) :
    (∀ (i : Nat) (e : RearrangeEpisode), lst[i]? = some e → e.episode_id = toString i)
    ∧ st2.num_ep_generated = lst.length
    ∧ (∀ (s : GeneratorState) (o : AttemptOracle) (s2 : GeneratorState),
        generate_single_episode cfg s o = .ok (none, s2) →
        s2.num_ep_generated = s.num_ep_generated) := by
  have h0 : st.num_ep_generated = 0 := generatorInit_counter cfg st hinit
  have hres := loop_ids_inv cfg oracles num 0 fuel 0 st [] 0 lst fl st2 hrun
    (by simpa using h0) (by intro i e hi; simp at hi)
  refine ⟨fun i e hi => ?_, by simpa using hres.2,
    fun s o s2 hh => by rw [gse_ok_none_inv cfg s o s2 hh]⟩
  have := hres.1 i e hi
  simpa using this

theorem claim_C7_episode_ids_witness :
    (generatorInit cfg0 = .ok st0
      ∧ generate_episodes cfg0 oraclesMix 2 5 st0 = .ok (some ([ep0, ep1], 1, st2c)))
    ∧ ((∀ (i : Nat) (e : RearrangeEpisode), [ep0, ep1][i]? = some e → e.episode_id = toString i)
      ∧ st2c.num_ep_generated = [ep0, ep1].length
      ∧ (∀ (s : GeneratorState) (o : AttemptOracle) (s2 : GeneratorState),
          generate_single_episode cfg0 s o = .ok (none, s2) →
          s2.num_ep_generated = s.num_ep_generated)) :=
  ⟨⟨rfl, genEpMixEval⟩, claim_C7_episode_ids cfg0 st0 oraclesMix 2 5 [ep0, ep1] 1 st2c rfl genEpMixEval⟩

theorem claim_C1_exact_count_witness :
    generate_episodes cfg0 oraclesMix 2 5 st0 = .ok (some ([ep0, ep1], 1, st2c))
    ∧ [ep0, ep1].length = 2
    ∧ ∀ e ∈ [ep0, ep1], ∃ (j : Nat) (s s2 : GeneratorState),
        generate_single_episode cfg0 s (oraclesMix j) = .ok (some e, s2) :=
  ⟨genEpMixEval, (claim_C1_exact_count cfg0 oraclesMix 2 5 st0 [ep0, ep1] 1 st2c genEpMixEval).1,
    (claim_C1_exact_count cfg0 oraclesMix 2 5 st0 [ep0, ep1] 1 st2c genEpMixEval).2⟩


theorem sampleAoPhaseAux_ok (o : AttemptOracle) :
    ∀ (l : List (String × AOSamplerSpec)) (acc : AOStates),
      (∀ p ∈ l, (o.aoResult p.1).isSome) → ∃ r, sampleAoPhaseAux o l acc = .ok r
  | [], acc => fun _ => ⟨acc, rfl⟩
  | s :: rest, acc => by
    intro h
    have hs := h s (by simp)
    rw [sampleAoPhaseAux]
    cases hres : o.aoResult s.1 with
    | none => rw [hres] at hs; cases hs
    | some results =>
      exact sampleAoPhaseAux_ok o rest (mergeAoResult acc results)
        (fun p hp => h p (by simp [hp]))

theorem sampleAoPhaseAux_congr (o o2 : AttemptOracle) (hfn : o2.aoResult = o.aoResult) :
    ∀ (l : List (String × AOSamplerSpec)) (acc : AOStates),
      sampleAoPhaseAux o2 l acc = sampleAoPhaseAux o l acc
  | [], acc => rfl
  | s :: rest, acc => by
    rw [sampleAoPhaseAux, sampleAoPhaseAux, hfn]
    cases o.aoResult s.1 with
    | none => rfl
    | some r => exact sampleAoPhaseAux_congr o o2 hfn rest (mergeAoResult acc r)

theorem sampleObjectsPhaseAux_congr (o o2 : AttemptOracle) (hfn : o2.objResult = o.objResult) :
    ∀ (l : List (String × ObjectSampler)) (d : List (String × List SimObject))
      (acc : List SimObject),
      sampleObjectsPhaseAux o2 l d acc = sampleObjectsPhaseAux o l d acc
  | [], d, acc => rfl
  | s :: rest, d, acc => by
    rw [sampleObjectsPhaseAux, sampleObjectsPhaseAux, hfn]
    exact sampleObjectsPhaseAux_congr o o2 hfn rest _ _

/-- Claim C3: when every AO sampler succeeds but the settle validator reports
instability, generate_single_episode returns none without raising and without
consulting the target oracle at all, and the generate_episodes loop counts
the attempt as failed and retries with unchanged generator state. -/
theorem claim_C3_unstable_reject (cfg : GenConfig) (st : GeneratorState) (o : AttemptOracle)
    (hao : ∀ p ∈ st.aoSamplers, (o.aoResult p.1).isSome)
    (hsettle : settle_sim (sampleObjectsPhase st.objSamplers o).2 = .ok false) :
    (∀ tr, generate_single_episode cfg st { o with targetResult := tr } = .ok (none, st))
    ∧ ∀ (oracles : Nat → AttemptOracle) (num fuel k failed : Nat)
        (acc : List RearrangeEpisode),
        acc.length < num → oracles k = o →
        generate_episodes_loop cfg oracles num (fuel + 1) k st acc failed
          = generate_episodes_loop cfg oracles num fuel (k + 1) st acc (failed + 1) := by
  have hmain : ∀ tr,
      generate_single_episode cfg st { o with targetResult := tr } = .ok (none, st) := by
    intro tr
    obtain ⟨aos, haos⟩ := sampleAoPhaseAux_ok o st.aoSamplers [] hao
    have hao2 : sampleAoPhase st.aoSamplers { o with targetResult := tr } = .ok aos := by
      unfold sampleAoPhase
      rw [sampleAoPhaseAux_congr o { o with targetResult := tr } rfl st.aoSamplers []]
      exact haos
    have hobj2 : sampleObjectsPhase st.objSamplers { o with targetResult := tr }
        = sampleObjectsPhase st.objSamplers o := by
      unfold sampleObjectsPhase
      exact sampleObjectsPhaseAux_congr o { o with targetResult := tr } rfl st.objSamplers [] []
    rw [generate_single_episode, hao2]
    simp only [hobj2, hsettle]
    rfl
  refine ⟨hmain, fun oracles num fuel k failed acc hlt hk => ?_⟩
  have ho : generate_single_episode cfg st o = .ok (none, st) := hmain o.targetResult
  exact loop_step_reject cfg oracles num fuel k st st acc failed (by rw [hk]; exact ho) hlt

theorem claim_C3_unstable_reject_witness :
    ((∀ p ∈ st0.aoSamplers, (oracleUnstable.aoResult p.1).isSome)
      ∧ settle_sim (sampleObjectsPhase st0.objSamplers oracleUnstable).2 = .ok false)
    ∧ ((∀ tr, generate_single_episode cfg0 st0 { oracleUnstable with targetResult := tr }
          = .ok (none, st0))
      ∧ ∀ (oracles : Nat → AttemptOracle) (num fuel k failed : Nat)
          (acc : List RearrangeEpisode),
          acc.length < num → oracles k = oracleUnstable →
          generate_episodes_loop cfg0 oracles num (fuel + 1) k st0 acc failed
            = generate_episodes_loop cfg0 oracles num fuel (k + 1) st0 acc (failed + 1)) := by
  have h1 : ∀ p ∈ st0.aoSamplers, (oracleUnstable.aoResult p.1).isSome := by
    intro p hp
    simp [st0] at hp
    subst hp
    rfl
  have h2 : settle_sim (sampleObjectsPhase st0.objSamplers oracleUnstable).2 = .ok false := by
    rw [show (sampleObjectsPhase st0.objSamplers oracleUnstable).2 = [objUnstable] from rfl]
    exact settleUnstableEval
  exact ⟨⟨h1, h2⟩, claim_C3_unstable_reject cfg0 st0 oracleUnstable h1 h2⟩

theorem sampleAoPhaseAux_err (o : AttemptOracle) :
    ∀ (l : List (String × AOSamplerSpec)) (acc : AOStates),
      (∃ p ∈ l, o.aoResult p.1 = none) →
      sampleAoPhaseAux o l acc = .error (.assertionError "AO sampler failed")
  | [], acc => by rintro ⟨p, hp, _⟩; cases hp
  | s :: rest, acc => by
    rintro ⟨p, hp, hnone⟩
    rw [sampleAoPhaseAux]
    cases hres : o.aoResult s.1 with
    | none => rfl
    | some r =>
      rcases List.mem_cons.mp hp with heq | hp2
      · subst heq; rw [hres] at hnone; cases hnone
      · exact sampleAoPhaseAux_err o rest (mergeAoResult acc r) ⟨p, hp2, hnone⟩

/-- Claim C4 (amended): when an AO state sampler signals failure (returns
none), the assert raises and the AssertionError propagates out of
generate_single_episode and out of the generate_episodes loop: the episode is
not silently discarded and generation does not continue. -/
theorem claim_C4_amended (cfg : GenConfig) (st : GeneratorState) (o : AttemptOracle)
    (h : ∃ p ∈ st.aoSamplers, o.aoResult p.1 = none) :
    generate_single_episode cfg st o = .error (.assertionError "AO sampler failed")
    ∧ ∀ (oracles : Nat → AttemptOracle) (num fuel k failed : Nat)
        (acc : List RearrangeEpisode),
        oracles k = o → acc.length < num →
        generate_episodes_loop cfg oracles num (fuel + 1) k st acc failed
          = .error (.assertionError "AO sampler failed") := by
  have hgse : generate_single_episode cfg st o
      = .error (.assertionError "AO sampler failed") := by
    rw [generate_single_episode]
    rw [show sampleAoPhase st.aoSamplers o = .error (.assertionError "AO sampler failed") from
      sampleAoPhaseAux_err o st.aoSamplers [] h]
  refine ⟨hgse, fun oracles num fuel k failed acc hk hlt => ?_⟩
  rw [generate_episodes_loop, if_pos hlt, hk, hgse]

theorem claim_C4_amended_witness :
    (∃ p ∈ st0.aoSamplers, oracleAOFail.aoResult p.1 = none)
    ∧ (generate_single_episode cfg0 st0 oracleAOFail
        = .error (.assertionError "AO sampler failed")
      ∧ ∀ (oracles : Nat → AttemptOracle) (num fuel k failed : Nat)
          (acc : List RearrangeEpisode),
          oracles k = oracleAOFail → acc.length < num →
          generate_episodes_loop cfg0 oracles num (fuel + 1) k st0 acc failed
            = .error (.assertionError "AO sampler failed")) := by
  have h : ∃ p ∈ st0.aoSamplers, oracleAOFail.aoResult p.1 = none :=
    ⟨("ao1", .uniform "fridge" "door" (3/2) (3/2)), by simp [st0], rfl⟩
  exact ⟨h, claim_C4_amended cfg0 st0 oracleAOFail h⟩

/-- Claim C4, counterexample to the original claim: with an AO sampler that
signals failure, the AssertionError escapes generate_episodes (the result is
an exception, not a retried generation that still returns the requested
count). -/
theorem claim_C4_counterexample :
    generate_episodes cfg0 (fun _ => oracleAOFail) 1 5 st0
      = .error (.assertionError "AO sampler failed")
    ∧ generate_single_episode cfg0 st0 oracleAOFail
      = .error (.assertionError "AO sampler failed") :=
  ⟨rfl, rfl⟩

theorem alContains_iff_mem_keys {κ α : Type} [BEq κ] [LawfulBEq κ]
    (d : List (κ × α)) (k : κ) :
    alContains d k = true ↔ k ∈ d.map Prod.fst := by
  unfold alContains
  simp [List.any_eq_true, List.mem_map]

theorem addTargets_nodup :
    ∀ (results acc m : List (String × Transform)),
      addTargets acc results = .ok m →
      (acc.map Prod.fst).Nodup → (m.map Prod.fst).Nodup
  | [], acc, m => by
    intro h hn
    injection h with h1
    subst h1
    exact hn
  | r :: rest, acc, m => by
    intro h hn
    rw [addTargets] at h
    cases hstep : addTarget acc r.1 r.2 with
    | error e => rw [hstep] at h; cases h
    | ok acc2 =>
      rw [hstep] at h
      simp only at h
      have hacc2 : (acc2.map Prod.fst).Nodup := by
        unfold addTarget at hstep
        by_cases hc : alContains acc r.1 = true
        · rw [if_pos hc] at hstep; cases hstep
        · have hc2 : alContains acc r.1 = false := by simpa using hc
          rw [if_neg hc] at hstep
          injection hstep with h2
          subst h2
          rw [alSet_not_contains acc r.1 r.2 hc2]
          rw [List.map_append]
          rw [List.nodup_append]
          refine ⟨hn, ?_, ?_⟩
          · simp
          · intro a ha hb
            simp at hb
            subst hb
            exact hc ((alContains_iff_mem_keys acc r.1).mpr ha)
      exact addTargets_nodup rest acc2 m h hacc2

theorem sampleTargetsAux_nodup (o : AttemptOracle) :
    ∀ (samplers : List (String × ObjectTargetSampler)) (acc m : List (String × Transform)),
      sampleTargetsAux o samplers acc = .ok m →
      (acc.map Prod.fst).Nodup → (m.map Prod.fst).Nodup
  | [], acc, m => by
    intro h hn
    injection h with h1
    subst h1
    exact hn
  | s :: rest, acc, m => by
    intro h hn
    rw [sampleTargetsAux] at h
    cases hstep : addTargets acc (o.targetResult s.1) with
    | error e => rw [hstep] at h; cases h
    | ok acc2 =>
      rw [hstep] at h
      simp only at h
      exact sampleTargetsAux_nodup o rest acc2 m h
        (addTargets_nodup (o.targetResult s.1) acc acc2 hstep hn)

/-- Claim C6: within one episode, a second target entry for an
instance handle already present in sampled_targets makes the assert raise (a
duplicate-target error) before the mapping is updated; consequently the
targets field of every returned episode record holds at most one entry per
instance handle (its keys are Nodup). -/
theorem claim_C6_duplicate_targets :
    (∀ (cfg : GenConfig) (st : GeneratorState) (o : AttemptOracle)
       (ep : RearrangeEpisode) (st2 : GeneratorState),
       generate_single_episode cfg st o = .ok (some ep, st2) →
       (ep.targets.map Prod.fst).Nodup)
    ∧ ∀ (acc : List (String × Transform)) (h : String) (t : Transform),
        alContains acc h = true →
        addTarget acc h t = .error (.assertionError "Duplicate target for instance.") := by
  constructor
  · intro cfg st o ep st2 hep
    obtain ⟨_, _, _, _, ts, hts, htar⟩ := gse_ok_some_inv cfg st o ep st2 hep
    exact sampleTargetsAux_nodup o ts [] ep.targets htar (by simp)
  · intro acc h t hc
    unfold addTarget
    rw [hc]
    rfl

theorem claim_C6_duplicate_targets_witness :
    (generate_single_episode cfgT st0 oracleT = .ok (some epT, st1)
      ∧ (epT.targets.map Prod.fst).Nodup)
    ∧ (alContains [("objInst1", ([[2]] : Transform))] "objInst1" = true
      ∧ addTarget [("objInst1", ([[2]] : Transform))] "objInst1" [[3]]
          = .error (.assertionError "Duplicate target for instance.")) :=
  ⟨⟨gseTEval, claim_C6_duplicate_targets.1 cfgT st0 oracleT epT st1 gseTEval⟩,
   ⟨rfl, claim_C6_duplicate_targets.2 [("objInst1", [[2]])] "objInst1" [[3]] rfl⟩⟩

/-- Claim C8: the orchestrator merge of AO sampler results into ao_states is
last-sampler-wins per (instance, link): over two samplers iterated in order,
a second value for the same instance and link overwrites the first, while
values for distinct links of the same instance are merged into one
per-instance mapping holding both. -/
theorem claim_C8_ao_merge (i : String) (l1 l2 : Nat) (v1 v2 : ℚ) :
    (∀ (n1 n2 : String) (sp1 sp2 : AOSamplerSpec) (o : AttemptOracle) (r1 r2 : AOStates),
       o.aoResult n1 = some r1 → o.aoResult n2 = some r2 →
       sampleAoPhase [(n1, sp1), (n2, sp2)] o
         = .ok (mergeAoResult (mergeAoResult [] r1) r2))
    ∧ (l1 = l2 →
        mergeAoResult (mergeAoResult [] [(i, [(l1, v1)])]) [(i, [(l2, v2)])]
          = [(i, [(l2, v2)])])
    ∧ (l1 ≠ l2 →
        alGet? (mergeAoResult (mergeAoResult [] [(i, [(l1, v1)])]) [(i, [(l2, v2)])]) i
          = some [(l1, v1), (l2, v2)]) := by
  have hmerge1 : mergeAoResult [] [(i, [(l1, v1)])] = [(i, [(l1, v1)])] := by
    simp [mergeAoResult, alGet?, alSet]
  refine ⟨?_, ?_, ?_⟩
  · intro n1 n2 sp1 sp2 o r1 r2 h1 h2
    unfold sampleAoPhase
    rw [sampleAoPhaseAux, h1]
    simp only
    rw [sampleAoPhaseAux, h2]
    simp only
    rw [sampleAoPhaseAux]
  · intro hl
    subst hl
    rw [hmerge1]
    simp [mergeAoResult, alGet?, alSet, List.find?]
  · intro hl
    rw [hmerge1]
    have hbeq : (l1 == l2) = false := by
      rw [beq_eq_false_iff_ne]
      exact hl
    simp [mergeAoResult, alGet?, alSet, List.find?, hbeq]

theorem claim_C8_ao_merge_witness :
    (oracleStable.aoResult "ao1" = some [("fridgeInst", [(0, 3/2)])]
      ∧ sampleAoPhase [("ao1", .uniform "fridge" "door" (3/2) (3/2)),
                       ("ao1", .uniform "fridge" "door" (3/2) (3/2))] oracleStable
          = .ok (mergeAoResult (mergeAoResult [] [("fridgeInst", [(0, 3/2)])])
              [("fridgeInst", [(0, 3/2)])]))
    ∧ mergeAoResult (mergeAoResult [] [("inst", [(0, (1:ℚ))])]) [("inst", [(0, (2:ℚ))])]
        = [("inst", [(0, (2:ℚ))])]
    ∧ alGet? (mergeAoResult (mergeAoResult [] [("inst", [(0, (1:ℚ))])])
        [("inst", [(1, (2:ℚ))])]) "inst" = some [(0, (1:ℚ)), (1, (2:ℚ))] := by
  refine ⟨⟨rfl, ?_⟩, ?_, ?_⟩
  · exact (claim_C8_ao_merge "x" 0 0 0 0).1 "ao1" "ao1"
      (.uniform "fridge" "door" (3/2) (3/2)) (.uniform "fridge" "door" (3/2) (3/2))
      oracleStable _ _ rfl rfl
  · exact (claim_C8_ao_merge "inst" 0 0 1 2).2.1 rfl
  · exact (claim_C8_ao_merge "inst" 0 1 1 2).2.2 (by decide)

theorem isErrE_iff {ε α : Type} (x : Except ε α) : isErrE x = true ↔ ∃ e, x = .error e := by
  cases x <;> simp [isErrE]

theorem buildSamplersAux_dup {π β : Type} (build : String → String → π → Except PyError β)
    (dupMsg : String) :
    ∀ (entries : List (String × String × π)) (acc : List (String × β)),
      (acc.map Prod.fst).Nodup →
      ¬ (acc.map Prod.fst ++ entries.map Prod.fst).Nodup →
      isErrE (buildSamplersAux build dupMsg entries acc) = true
  | [], acc => by
    intro hnd hbad
    exact absurd (by simpa using hnd) hbad
  | e :: rest, acc => by
    intro hnd hbad
    rw [buildSamplersAux]
    by_cases hc : alContains acc e.1 = true
    · rw [if_pos hc]; rfl
    · rw [if_neg hc]
      cases hb : build e.1 e.2.1 e.2.2 with
      | error err => rfl
      | ok b =>
        have hc2 : alContains acc e.1 = false := by simpa using hc
        have hkeys : (alSet acc e.1 b).map Prod.fst = acc.map Prod.fst ++ [e.1] := by
          rw [alSet_not_contains acc e.1 b hc2, List.map_append]
          rfl
        apply buildSamplersAux_dup build dupMsg rest (alSet acc e.1 b)
        · rw [hkeys, List.nodup_append]
          refine ⟨hnd, ?_, ?_⟩
          · simp
          · intro a ha hb2
            simp at hb2
            subst hb2
            exact hc ((alContains_iff_mem_keys acc e.1).mpr ha)
        · rw [hkeys]
          intro hcontra
          apply hbad
          have heq : acc.map Prod.fst ++ (e :: rest).map Prod.fst
              = (acc.map Prod.fst ++ [e.1]) ++ rest.map Prod.fst := by
            simp
          rw [heq]
          exact hcontra

theorem buildSamplersAux_badentry {π β : Type} (build : String → String → π → Except PyError β)
    (dupMsg : String) :
    ∀ (entries : List (String × String × π)) (acc : List (String × β)),
      (∃ e ∈ entries, isErrE (build e.1 e.2.1 e.2.2) = true) →
      isErrE (buildSamplersAux build dupMsg entries acc) = true
  | [], acc => by rintro ⟨e, he, _⟩; cases he
  | e :: rest, acc => by
    rintro ⟨e2, he2, hbad⟩
    rw [buildSamplersAux]
    by_cases hc : alContains acc e.1 = true
    · rw [if_pos hc]; rfl
    · rw [if_neg hc]
      cases hb : build e.1 e.2.1 e.2.2 with
      | error err => rfl
      | ok b =>
        rcases List.mem_cons.mp he2 with heq | hmem
        · subst heq
          rw [hb] at hbad
          cases hbad
        · exact buildSamplersAux_badentry build dupMsg rest (alSet acc e.1 b) ⟨e2, hmem, hbad⟩

theorem resolveListAux_err {α : Type} (sets : List (String × List α)) :
    ∀ (names : List String) (acc : List α),
      (∃ y ∈ names, alGet? sets y = none) →
      isErrE (resolveListAux sets names acc) = true
  | [], acc => by rintro ⟨y, hy, _⟩; cases hy
  | y :: rest, acc => by
    rintro ⟨y2, hy2, hnone⟩
    rw [resolveListAux]
    cases hres : alGet? sets y with
    | none => rfl
    | some xs =>
      rcases List.mem_cons.mp hy2 with heq | hmem
      · subst heq
        rw [hres] at hnone
        cases hnone
      · exact resolveListAux_err sets rest (acc ++ xs) ⟨y2, hmem, hnone⟩

theorem collectSceneSubsetsAux_err (sceneSets : List (String × List String)) :
    ∀ (names acc : List String),
      (∃ y ∈ names, alGet? sceneSets y = none) →
      isErrE (collectSceneSubsetsAux sceneSets names acc) = true
  | [], acc => by rintro ⟨y, hy, _⟩; cases hy
  | y :: rest, acc => by
    rintro ⟨y2, hy2, hnone⟩
    rw [collectSceneSubsetsAux]
    cases hres : alGet? sceneSets y with
    | none => rfl
    | some xs =>
      rcases List.mem_cons.mp hy2 with heq | hmem
      · subst heq
        rw [hres] at hnone
        cases hnone
      · exact collectSceneSubsetsAux_err sceneSets rest (acc ++ xs) ⟨y2, hmem, hnone⟩

theorem generatorInit_err_scene (cfg : GenConfig)
    (h : isErrE (_get_scene_sampler cfg (_get_resource_sets cfg)) = true) :
    isErrE (generatorInit cfg) = true := by
  unfold generatorInit
  simp only
  obtain ⟨e, he⟩ := (isErrE_iff _).mp h
  rw [he]
  rfl

theorem generatorInit_err_obj (cfg : GenConfig)
    (h : isErrE (_get_obj_samplers cfg (_get_resource_sets cfg)) = true) :
    isErrE (generatorInit cfg) = true := by
  unfold generatorInit
  simp only
  cases hs : _get_scene_sampler cfg (_get_resource_sets cfg) with
  | error e => rfl
  | ok ss =>
    simp only
    obtain ⟨e, he⟩ := (isErrE_iff _).mp h
    rw [he]
    rfl

theorem generatorInit_err_ao (cfg : GenConfig)
    (h : isErrE (_get_ao_state_samplers cfg) = true) :
    isErrE (generatorInit cfg) = true := by
  unfold generatorInit
  simp only
  cases hs : _get_scene_sampler cfg (_get_resource_sets cfg) with
  | error e => rfl
  | ok ss =>
    simp only
    cases ho : _get_obj_samplers cfg (_get_resource_sets cfg) with
    | error e => rfl
    | ok os =>
      simp only
      obtain ⟨e, he⟩ := (isErrE_iff _).mp h
      rw [he]
      rfl

theorem buildObjSampler_err_unknown (rs : ResourceSets) (n t : String) (p : ObjSamplerParams)
    (h : t ≠ "uniform") : isErrE (buildObjSampler rs n t p) = true := by
  unfold buildObjSampler
  rw [if_neg h]
  rfl

theorem buildObjSampler_err_missing (rs : ResourceSets) (n : String)
    (oSets rSets : List String) (mnN mxN : Nat) (orient : String)
    (h : (∃ y ∈ oSets, alGet? rs.obj_sets y = none)
       ∨ ∃ y ∈ rSets, alGet? rs.receptacle_sets y = none) :
    isErrE (buildObjSampler rs n "uniform" (.uniform oSets rSets mnN mxN orient)) = true := by
  unfold buildObjSampler
  rw [if_pos rfl]
  simp only
  cases h1 : resolveList rs.obj_sets oSets with
  | error e => rfl
  | ok objects =>
    simp only
    rcases h with hmiss | hmiss
    · obtain ⟨e, he⟩ := (isErrE_iff _).mp (resolveListAux_err rs.obj_sets oSets [] hmiss)
      unfold resolveList at h1
      rw [he] at h1
      cases h1
    · cases h2 : resolveList rs.receptacle_sets rSets with
      | error e => rfl
      | ok receptacles =>
        obtain ⟨e, he⟩ :=
          (isErrE_iff _).mp (resolveListAux_err rs.receptacle_sets rSets [] hmiss)
        unfold resolveList at h2
        rw [he] at h2
        cases h2

theorem buildTargetSampler_err_unknown (sampled : List (String × List SimObject))
    (rs : ResourceSets) (n t : String) (p : TargetSamplerParams)
    (h : t ≠ "uniform") : isErrE (buildTargetSampler sampled rs n t p) = true := by
  unfold buildTargetSampler
  rw [if_neg h]
  rfl

theorem buildTargetSampler_err_missing (sampled : List (String × List SimObject))
    (rs : ResourceSets) (n : String)
    (samplerNames rSets : List String) (mnN mxN : Nat) (orient : String)
    (h : (∃ y ∈ samplerNames, alGet? sampled y = none)
       ∨ ∃ y ∈ rSets, alGet? rs.receptacle_sets y = none) :
    isErrE (buildTargetSampler sampled rs n "uniform"
      (.uniform samplerNames rSets mnN mxN orient)) = true := by
  unfold buildTargetSampler
  rw [if_pos rfl]
  simp only
  cases h1 : resolveList sampled samplerNames with
  | error e => rfl
  | ok instances =>
    simp only
    rcases h with hmiss | hmiss
    · obtain ⟨e, he⟩ := (isErrE_iff _).mp (resolveListAux_err sampled samplerNames [] hmiss)
      unfold resolveList at h1
      rw [he] at h1
      cases h1
    · cases h2 : resolveList rs.receptacle_sets rSets with
      | error e => rfl
      | ok receptacles =>
        obtain ⟨e, he⟩ :=
          (isErrE_iff _).mp (resolveListAux_err rs.receptacle_sets rSets [] hmiss)
        unfold resolveList at h2
        rw [he] at h2
        cases h2

theorem buildAOSampler_err_unknown (n t : String) (p : AOSamplerParams)
    (h1 : t ≠ "uniform") (h2 : t ≠ "composite") :
    isErrE (buildAOSampler n t p) = true := by
  unfold buildAOSampler
  rw [if_neg h1, if_neg h2]
  rfl

theorem scene_err_unknown (cfg : GenConfig)
    (h1 : cfg.scene_sampler.1 ≠ "single") (h2 : cfg.scene_sampler.1 ≠ "subset") :
    isErrE (_get_scene_sampler cfg (_get_resource_sets cfg)) = true := by
  unfold _get_scene_sampler
  rw [if_neg h1, if_neg h2]
  rfl

theorem scene_err_subset_missing (cfg : GenConfig) (inc exc : List String)
    (hs : cfg.scene_sampler = ("subset", .subset inc exc))
    (h : (∃ y ∈ inc, alGet? (buildSets cfg.scene_sets) y = none)
       ∨ ∃ y ∈ exc, alGet? (buildSets cfg.scene_sets) y = none) :
    isErrE (_get_scene_sampler cfg (_get_resource_sets cfg)) = true := by
  have hs1 : cfg.scene_sampler.1 = "subset" := by rw [hs]
  have hs2 : cfg.scene_sampler.2 = SceneSamplerParams.subset inc exc := by rw [hs]
  unfold _get_scene_sampler
  rw [hs1]
  rw [if_neg (by decide : ("subset" : String) ≠ "single"), if_pos rfl]
  rw [hs2]
  simp only
  cases h1 : collectSceneSubsets (_get_resource_sets cfg).scene_sets inc with
  | error e => rfl
  | ok included =>
    simp only
    rcases h with hmiss | hmiss
    · obtain ⟨e, he⟩ := (isErrE_iff _).mp
        (collectSceneSubsetsAux_err (buildSets cfg.scene_sets) inc [] hmiss)
      unfold collectSceneSubsets at h1
      rw [show ((_get_resource_sets cfg).scene_sets) = buildSets cfg.scene_sets from rfl] at h1
      rw [he] at h1
      cases h1
    · cases h2 : collectSceneSubsets (_get_resource_sets cfg).scene_sets exc with
      | error e => rfl
      | ok excluded =>
        obtain ⟨e, he⟩ := (isErrE_iff _).mp
          (collectSceneSubsetsAux_err (buildSets cfg.scene_sets) exc [] hmiss)
        unfold collectSceneSubsets at h2
        rw [show ((_get_resource_sets cfg).scene_sets) = buildSets cfg.scene_sets from rfl] at h2
        rw [he] at h2
        cases h2

/-- Claim C5 (amended): duplicate sampler names, unknown sampler type strings
and references to undefined resource sets abort generator construction for
the scene sampler, the object samplers and the AO state samplers; but for the
target sampler category none of these is checked at construction
(generatorInit is independent of the target sampler configuration): they are
raised only when the target samplers are constructed during episode
generation. -/
theorem claim_C5_amended :
    (∀ cfg : GenConfig, ¬ (cfg.obj_samplers.map Prod.fst).Nodup →
        isErrE (generatorInit cfg) = true)
    ∧ (∀ (cfg : GenConfig) (e : String × String × ObjSamplerParams),
        e ∈ cfg.obj_samplers → e.2.1 ≠ "uniform" → isErrE (generatorInit cfg) = true)
    ∧ (∀ (cfg : GenConfig) (nm : String) (oSets rSets : List String) (mnN mxN : Nat)
        (orient : String),
        (nm, "uniform", ObjSamplerParams.uniform oSets rSets mnN mxN orient)
          ∈ cfg.obj_samplers →
        ((∃ y ∈ oSets, alGet? (buildSets cfg.object_sets) y = none)
          ∨ ∃ y ∈ rSets, alGet? (buildSets cfg.receptacle_sets) y = none) →
        isErrE (generatorInit cfg) = true)
    ∧ (∀ cfg : GenConfig, ¬ (cfg.ao_state_samplers.map Prod.fst).Nodup →
        isErrE (generatorInit cfg) = true)
    ∧ (∀ (cfg : GenConfig) (e : String × String × AOSamplerParams),
        e ∈ cfg.ao_state_samplers → e.2.1 ≠ "uniform" → e.2.1 ≠ "composite" →
        isErrE (generatorInit cfg) = true)
    ∧ (∀ cfg : GenConfig, cfg.scene_sampler.1 ≠ "single" → cfg.scene_sampler.1 ≠ "subset" →
        isErrE (generatorInit cfg) = true)
    ∧ (∀ (cfg : GenConfig) (inc exc : List String),
        cfg.scene_sampler = ("subset", SceneSamplerParams.subset inc exc) →
        ((∃ y ∈ inc, alGet? (buildSets cfg.scene_sets) y = none)
          ∨ ∃ y ∈ exc, alGet? (buildSets cfg.scene_sets) y = none) →
        isErrE (generatorInit cfg) = true)
    ∧ (∀ (cfg : GenConfig) (ts : List (String × String × TargetSamplerParams)),
        generatorInit { cfg with obj_target_samplers := ts } = generatorInit cfg)
    ∧ (∀ (cfg : GenConfig) (sampled : List (String × List SimObject)) (rs : ResourceSets),
        ¬ (cfg.obj_target_samplers.map Prod.fst).Nodup →
        isErrE (_get_object_target_samplers cfg sampled rs) = true)
    ∧ (∀ (cfg : GenConfig) (sampled : List (String × List SimObject)) (rs : ResourceSets)
        (e : String × String × TargetSamplerParams),
        e ∈ cfg.obj_target_samplers → e.2.1 ≠ "uniform" →
        isErrE (_get_object_target_samplers cfg sampled rs) = true)
    ∧ (∀ (cfg : GenConfig) (sampled : List (String × List SimObject)) (rs : ResourceSets)
        (nm : String) (samplerNames rSets : List String) (mnN mxN : Nat) (orient : String),
        (nm, "uniform", TargetSamplerParams.uniform samplerNames rSets mnN mxN orient)
          ∈ cfg.obj_target_samplers →
        ((∃ y ∈ samplerNames, alGet? sampled y = none)
          ∨ ∃ y ∈ rSets, alGet? rs.receptacle_sets y = none) →
        isErrE (_get_object_target_samplers cfg sampled rs) = true) := by
  refine ⟨?_, ?_, ?_, ?_, ?_, ?_, ?_, ?_, ?_, ?_, ?_⟩
  · intro cfg hdup
    exact generatorInit_err_obj cfg
      (buildSamplersAux_dup _ _ cfg.obj_samplers [] (by simp) (by simpa using hdup))
  · intro cfg e he ht
    exact generatorInit_err_obj cfg
      (buildSamplersAux_badentry _ _ cfg.obj_samplers []
        ⟨e, he, buildObjSampler_err_unknown (_get_resource_sets cfg) e.1 e.2.1 e.2.2 ht⟩)
  · intro cfg nm oSets rSets mnN mxN orient he hmiss
    exact generatorInit_err_obj cfg
      (buildSamplersAux_badentry _ _ cfg.obj_samplers []
        ⟨(nm, "uniform", ObjSamplerParams.uniform oSets rSets mnN mxN orient), he,
          buildObjSampler_err_missing (_get_resource_sets cfg) nm oSets rSets mnN mxN orient
            hmiss⟩)
  · intro cfg hdup
    exact generatorInit_err_ao cfg
      (buildSamplersAux_dup _ _ cfg.ao_state_samplers [] (by simp) (by simpa using hdup))
  · intro cfg e he ht1 ht2
    exact generatorInit_err_ao cfg
      (buildSamplersAux_badentry _ _ cfg.ao_state_samplers []
        ⟨e, he, buildAOSampler_err_unknown e.1 e.2.1 e.2.2 ht1 ht2⟩)
  · intro cfg h1 h2
    exact generatorInit_err_scene cfg (scene_err_unknown cfg h1 h2)
  · intro cfg inc exc hs hmiss
    exact generatorInit_err_scene cfg (scene_err_subset_missing cfg inc exc hs hmiss)
  · intro cfg ts
    rfl
  · intro cfg sampled rs hdup
    exact buildSamplersAux_dup _ _ cfg.obj_target_samplers [] (by simp) (by simpa using hdup)
  · intro cfg sampled rs e he ht
    exact buildSamplersAux_badentry _ _ cfg.obj_target_samplers []
      ⟨e, he, buildTargetSampler_err_unknown sampled rs e.1 e.2.1 e.2.2 ht⟩
  · intro cfg sampled rs nm samplerNames rSets mnN mxN orient he hmiss
    exact buildSamplersAux_badentry _ _ cfg.obj_target_samplers []
      ⟨(nm, "uniform", TargetSamplerParams.uniform samplerNames rSets mnN mxN orient), he,
        buildTargetSampler_err_missing sampled rs nm samplerNames rSets mnN mxN orient hmiss⟩

/-- Claim C5, counterexample to the original claim: a duplicate sampler name
in the target category (cfgDupTarget) is one of the listed configuration
error kinds, yet generator construction succeeds; the error is raised only
later, inside generate_single_episode when the target samplers are built. -/
theorem claim_C5_counterexample :
    ¬ (cfgDupTarget.obj_target_samplers.map Prod.fst).Nodup
    ∧ generatorInit cfgDupTarget = .ok st0
    ∧ generate_single_episode cfgDupTarget st0 oracleStable
        = .error (.assertionError "Duplicate target sampler name in config.") := by
  refine ⟨?_, rfl, ?_⟩
  · simp [cfgDupTarget, cfg0]
  · have hao : sampleAoPhase st0.aoSamplers oracleStable
        = .ok [("fridgeInst", [(0, 3/2)])] := rfl
    have h : sampleObjectsPhase st0.objSamplers oracleStable
        = ([("any", [objStable])], [objStable]) := rfl
    rw [generate_single_episode]
    simp only [hao, h, settleStableEval]
    rfl

theorem claim_C5_amended_witness :
    (¬ (cfgDupObj.obj_samplers.map Prod.fst).Nodup
      ∧ isErrE (generatorInit cfgDupObj) = true)
    ∧ generatorInit { cfg0 with obj_target_samplers := cfgDupTarget.obj_target_samplers }
        = generatorInit cfg0
    ∧ (¬ (cfgDupTarget.obj_target_samplers.map Prod.fst).Nodup
      ∧ isErrE (_get_object_target_samplers cfgDupTarget [("any", [objStable])]
          st0.resourceSets) = true) := by
  have h1 : ¬ (cfgDupObj.obj_samplers.map Prod.fst).Nodup := by simp [cfgDupObj, cfg0]
  have h2 : ¬ (cfgDupTarget.obj_target_samplers.map Prod.fst).Nodup := by
    simp [cfgDupTarget, cfg0]
  exact ⟨⟨h1, claim_C5_amended.1 cfgDupObj h1⟩,
    claim_C5_amended.2.2.2.2.2.2.2.1 cfg0 cfgDupTarget.obj_target_samplers,
    ⟨h2, claim_C5_amended.2.2.2.2.2.2.2.2.1 cfgDupTarget [("any", [objStable])]
      st0.resourceSets h2⟩⟩

end HabitatRearrange
